import Mathlib

/-
Verification of the simulation engine of `EntrepreneurialWellbeingSimulator.jsx`:
the seeded pseudo-random generator (`SeededRandom`), the trajectory engine
(`runSimulation`) and the multi-run driver (`runMultipleSimulations`).

Embedding conventions:
* JS numbers are IEEE binary64 doubles.  The per-period model arithmetic is
  embedded in `ℝ` (exact real arithmetic); `Math.exp/log/cos/sqrt` become
  `Real.exp/log/cos/sqrt`.
* The generator state is an integer at every program point (the constructor
  receives integers and `& 0x7fffffff` produces integers), so seeds are
  embedded as `ℕ`.  The expression `this.seed * 1103515245 + 12345` is
  evaluated by JS in binary64: a product that exceeds 2^53 is rounded to
  53 significant bits (round to nearest, ties to even) before `& 0x7fffffff`
  is applied.  `fl53` models that rounding exactly; it is the identity below
  2^53.
* `x & 0x7fffffff` on a nonnegative integer-valued double is the low 31 bits,
  i.e. `% 2^31`.
-/

namespace WellBeing

/-- Fuel-driven base-2 logarithm: `szAux f n` is `⌊log2 n⌋` whenever the fuel
`f` is at least `⌊log2 n⌋` (in particular for `f = n`). -/
def szAux : ℕ → ℕ → ℕ
  | 0, _ => 0
  | f + 1, n => if n < 2 then 0 else szAux f (n / 2) + 1

/-- Position of the leading binary digit of `n` (i.e. `⌊log2 n⌋` for `n ≥ 1`). -/
def sz (n : ℕ) : ℕ := szAux n n

/-- Rounding of `n` to the grid of multiples of `d`, to nearest with ties to
even multiples. -/
def roundEven (n d : ℕ) : ℕ :=
  if 2 * (n % d) < d then n / d * d
  else if d < 2 * (n % d) then (n / d + 1) * d
  else if (n / d) % 2 = 0 then n / d * d else (n / d + 1) * d

/-- Rounding of a nonnegative integer to 53 significant binary digits, round to
nearest with ties to even: the value of storing the integer `n` in an IEEE
binary64 double.  For `n < 2^53` the double is exact. -/
def fl53 (n : ℕ) : ℕ :=
  if n < 2 ^ 53 then n
  else roundEven n (2 ^ (sz n - 52))

/-- LCG multiplier of `SeededRandom` (line 13 of the source). -/
def lcgA : ℕ := 1103515245

/-- LCG increment of `SeededRandom` (line 13 of the source). -/
def lcgC : ℕ := 12345

/-- Seed update of `SeededRandom.next`:
`this.seed = (this.seed * 1103515245 + 12345) & 0x7fffffff`, with the binary64
rounding of the product and of the sum made explicit via `fl53`. -/
def nextSeed (s : ℕ) : ℕ := fl53 (fl53 (s * lcgA) + lcgC) % 2 ^ 31

/-- Return value of `SeededRandom.next`: `this.seed / 0x7fffffff` evaluated on
the updated seed. -/
noncomputable def nextVal (s : ℕ) : ℝ := (nextSeed s : ℝ) / (2 ^ 31 - 1)

/-- `SeededRandom.nextNormal(mean, std)` (Box–Muller): consumes two uniform
draws; returns the updated generator state and `mean + z * std` with
`z = sqrt(-2 ln u1) * cos(2π u2)`. -/
noncomputable def nextNormal (s : ℕ) (mean std : ℝ) : ℕ × ℝ :=
  let s1 := nextSeed s
  let s2 := nextSeed s1
  let u1 : ℝ := (s1 : ℝ) / (2 ^ 31 - 1)
  let u2 : ℝ := (s2 : ℝ) / (2 ^ 31 - 1)
  (s2, mean + Real.sqrt (-2 * Real.log u1) * Real.cos (2 * Real.pi * u2) * std)

/-- `SeededRandom.nextTruncatedNormal(mean, std, min, max)`: one normal draw
hard-clamped into `[lo, hi]` by `Math.max(min, Math.min(max, value))`. -/
noncomputable def nextTruncatedNormal (s : ℕ) (mean std lo hi : ℝ) : ℕ × ℝ :=
  let n := nextNormal s mean std
  (n.1, max lo (min hi n.2))

/-- `SeededRandom.nextPoisson(mean, min, max)`: a Bernoulli draw, 1 with
probability `mean` else 0, clamped into `[lo, hi]`. -/
noncomputable def nextPoisson (s : ℕ) (mean lo hi : ℝ) : ℕ × ℝ :=
  let s' := nextSeed s
  let u : ℝ := (s' : ℝ) / (2 ^ 31 - 1)
  (s', max lo (min hi (if u < mean then (1 : ℝ) else 0)))

/-- Simulation parameters: the four sliders and the ten coefficients
`var1`..`var10` (the JS `coefficients.varN ?? 1` defaults are resolved by the
caller, so every coefficient is explicit here). -/
structure Params where
  ambition : ℝ
  skill : ℝ
  selfRegulation : ℝ
  dynamism : ℝ
  var1 : ℝ
  var2 : ℝ
  var3 : ℝ
  var4 : ℝ
  var5 : ℝ
  var6 : ℝ
  var7 : ℝ
  var8 : ℝ
  var9 : ℝ
  var10 : ℝ

/-- The four stock variables of one run (lines 65–68). -/
structure State where
  motivation : ℝ
  strain : ℝ
  cumulativeEffort : ℝ
  progress : ℝ

/-- Initial stocks: all zero. -/
def initState : State := ⟨0, 0, 0, 0⟩

/-- The five stream seeds of one run (lines 58–62). -/
structure Seeds where
  advance : ℕ
  setback : ℕ
  setbackPoisson : ℕ
  challenge : ℕ
  hindrance : ℕ

/-- Stream construction from the base seed (lines 58–62):
offsets 0, 1000, 1500, 2000, 3000. -/
def mkSeeds (base : ℕ) : Seeds :=
  ⟨base, base + 1000, base + 1500, base + 2000, base + 3000⟩

/-- All auxiliary and flow quantities computed in one loop iteration
(lines 74–123). -/
structure Flows where
  progressSensitivity : ℝ
  relativeProgress : ℝ
  resources : ℝ
  challengeStressors : ℝ
  hindranceStressors : ℝ
  recovery : ℝ
  motivationIncrease : ℝ
  motivationDecrease : ℝ
  strainIncrease : ℝ
  strainDecrease : ℝ
  effort : ℝ
  advanceRandom : ℝ
  advance : ℝ
  setbackPoisson : ℝ
  setbackRandom : ℝ
  setback : ℝ

/-- One iteration of the simulation loop, lines 74–123: all auxiliary and flow
variables of period `t`, computed from the stocks `st` as they stand at the
start of the period, together with the updated stream seeds.  The
`ambition === 0` short-circuits skip the challenge/hindrance draws entirely,
leaving those two stream seeds untouched. -/
noncomputable def stepFlows (p : Params) (ft : ℤ) (t : ℕ) (st : State) (sd : Seeds) :
    Flows × Seeds :=
  let progressSensitivity : ℝ := (t : ℝ) / (ft : ℝ)
  let relativeProgress : ℝ :=
    if st.cumulativeEffort = 0 then 0 else st.progress / st.cumulativeEffort
  let resources : ℝ :=
    p.ambition * (1 - progressSensitivity) + relativeProgress * progressSensitivity
  let chDraw := nextTruncatedNormal sd.challenge 0 p.ambition 0 p.ambition
  let challengeStressors : ℝ := if p.ambition = 0 then 0 else chDraw.2
  let chSeed : ℕ := if p.ambition = 0 then sd.challenge else chDraw.1
  let hiDraw := nextTruncatedNormal sd.hindrance 0 p.ambition 0 p.ambition
  let hindranceStressors : ℝ := if p.ambition = 0 then 0 else hiDraw.2
  let hiSeed : ℕ := if p.ambition = 0 then sd.hindrance else hiDraw.1
  let recovery : ℝ := if p.ambition = 0 then 1 else
    1 - (1 - p.selfRegulation) * (p.var2 * challengeStressors + p.var3 * hindranceStressors)
      / (2 * p.ambition)
  let motivationIncrease : ℝ := max challengeStressors resources * recovery * p.var1
  let motivationDecrease : ℝ :=
    min st.motivation ((1 - p.selfRegulation) * hindranceStressors * p.var7)
  let strainIncrease : ℝ := if p.ambition = 0 then 0 else
    (1 - p.selfRegulation) * (p.var4 * challengeStressors + p.var5 * hindranceStressors)
      / (2 * p.ambition)
  let strainDecrease : ℝ := min st.strain (resources * recovery * p.var6)
  let effort : ℝ := if st.motivation = 0 then 0 else
    p.var8 * (1 / (1 + Real.exp (st.strain - st.motivation)))
  let advDraw := nextTruncatedNormal sd.advance 0 p.ambition 0 p.ambition
  let advance : ℝ := if p.skill = 0 then 0 else effort * p.skill * advDraw.2
  let spDraw := nextPoisson sd.setbackPoisson p.dynamism 0 1
  let sbDraw := nextTruncatedNormal sd.setback 0 p.ambition 0 p.ambition
  let setback : ℝ := spDraw.2 * min st.progress sbDraw.2
  (⟨progressSensitivity, relativeProgress, resources, challengeStressors,
    hindranceStressors, recovery, motivationIncrease, motivationDecrease,
    strainIncrease, strainDecrease, effort, advDraw.2, advance, spDraw.2,
    sbDraw.2, setback⟩,
   ⟨advDraw.1, sbDraw.1, spDraw.1, chSeed, hiSeed⟩)

/-- Stock update of lines 127–135: the four sums, then the safety clamp
`Math.max(0, ·)` applied to motivation, strain and progress (and, in the
source, to those three only). -/
noncomputable def updateState (st : State) (f : Flows) : State :=
  { motivation := max 0 (st.motivation + f.motivationIncrease - f.motivationDecrease)
    strain := max 0 (st.strain + f.strainIncrease - f.strainDecrease)
    cumulativeEffort := st.cumulativeEffort + f.effort
    progress := max 0 (st.progress + f.advance - f.setback) }

/-- Rounding of `Number.prototype.toFixed(3)` followed by unary `+`: round to
the nearest multiple of 1/1000, halves away from zero for positive inputs
(ties pick the larger candidate). -/
noncomputable def round3 (x : ℝ) : ℝ := ((⌊1000 * x + 1 / 2⌋ : ℤ) : ℝ) / 1000

/-- A recorded trajectory point (lines 144–158). -/
structure Point where
  period : ℕ
  motivation : ℝ
  strain : ℝ
  effort : ℝ
  performance : ℝ
  wellbeing : ℝ
  resources : ℝ
  recovery : ℝ
  cumulativeEffort : ℝ
  challengeStressors : ℝ
  hindranceStressors : ℝ
  advance : ℝ
  setback : ℝ

/-- The snapshot pushed at a sampling period (lines 144–158): the post-update
stocks, the flows of the period and `wellbeing = var9·motivation − var10·strain`
(line 140, from post-update stocks), all rounded to 3 decimals. -/
noncomputable def mkPoint (p : Params) (t : ℕ) (f : Flows) (st : State) : Point :=
  { period := t
    motivation := round3 st.motivation
    strain := round3 st.strain
    effort := round3 f.effort
    performance := round3 st.progress
    wellbeing := round3 (p.var9 * st.motivation - p.var10 * st.strain)
    resources := round3 f.resources
    recovery := round3 f.recovery
    cumulativeEffort := round3 st.cumulativeEffort
    challengeStressors := round3 f.challengeStressors
    hindranceStressors := round3 f.hindranceStressors
    advance := round3 f.advance
    setback := round3 f.setback }

/-- The simulation loop `for (time = 0; time <= finalTime; time++)` with
explicit fuel (number of remaining iterations) and current period `t`:
each iteration computes the flows, updates the stocks, and records a point
when `t % 5 = 0`. -/
noncomputable def go (p : Params) (ft : ℤ) : ℕ → ℕ → State → Seeds → List Point
  | _, 0, _, _ => []
  | t, n + 1, st, sd =>
    (if t % 5 = 0 then
      [mkPoint p t (stepFlows p ft t st sd).1 (updateState st (stepFlows p ft t st sd).1)]
    else []) ++
      go p ft (t + 1) n (updateState st (stepFlows p ft t st sd).1) (stepFlows p ft t st sd).2

/-- Same loop, returning the final stocks and stream seeds instead of the
trajectory. -/
noncomputable def goAux (p : Params) (ft : ℤ) : ℕ → ℕ → State → Seeds → State × Seeds
  | _, 0, st, sd => (st, sd)
  | t, n + 1, st, sd =>
    goAux p ft (t + 1) n (updateState st (stepFlows p ft t st sd).1) (stepFlows p ft t st sd).2

/-- Number of loop iterations for horizon `ft`: periods `0..ft` inclusive when
`ft ≥ 0`, none when `ft < 0`. -/
def iterCount (ft : ℤ) : ℕ := (ft + 1).toNat

/-- Base-seed selection of line 57, `seed || Math.floor(Math.random()*1000000)`:
a `null` seed and the (falsy) seed `0` both fall back to the ambient entropy;
any other seed is used as given. -/
def baseOf (seed : Option ℕ) (entropy : ℕ) : ℕ :=
  match seed with
  | none => entropy
  | some s => if s = 0 then entropy else s

/-- `runSimulation(params, finalTime, seed)` (lines 41–163).  `entropy` stands
for the `Math.floor(Math.random() * 1000000)` value the engine would draw; it
is consulted only when `seed` is `null` or `0`. -/
noncomputable def runSimulation (p : Params) (ft : ℤ) (seed : Option ℕ) (entropy : ℕ) :
    List Point :=
  go p ft 0 (iterCount ft) initState (mkSeeds (baseOf seed entropy))

/-- The final stocks and stream seeds of a `runSimulation` call. -/
noncomputable def runSimAux (p : Params) (ft : ℤ) (seed : Option ℕ) (entropy : ℕ) :
    State × Seeds :=
  goAux p ft 0 (iterCount ft) initState (mkSeeds (baseOf seed entropy))

/-- One entry of the multi-run driver output (lines 171–176). -/
structure Summary where
  run : ℕ
  performance : ℝ
  wellbeing : ℝ
  finalEffort : ℝ

/-- `runMultipleSimulations(params, numRuns, finalTime)` (lines 166–179): each
run calls `runSimulation` with a `null` seed (fresh entropy `entropy i`) and
keeps the last trajectory point's performance, wellbeing and effort.  Reading
`trajectory[trajectory.length - 1]` of an empty trajectory is a JS `TypeError`;
that failure is modelled by `none`. -/
noncomputable def runMultipleSimulations (p : Params) (numRuns ft : ℤ) (entropy : ℕ → ℕ) :
    Option (List Summary) :=
  (List.range numRuns.toNat).mapM fun i =>
    (runSimulation p ft none (entropy i)).getLast?.map fun final =>
      { run := i
        performance := final.performance
        wellbeing := final.wellbeing
        finalEffort := final.effort }

/-- Parameter set of the spec's known-point fixture: ambition, skill and
self-regulation 0.5, dynamism 0.2, all coefficients at their default 1. -/
noncomputable def p42 : Params := ⟨1/2, 1/2, 1/2, 1/5, 1, 1, 1, 1, 1, 1, 1, 1, 1, 1⟩

/-- A default all-ones-coefficients parameter set used for concrete instances. -/
noncomputable def pDefault : Params := ⟨1/2, 1/2, 1/2, 1/5, 1, 1, 1, 1, 1, 1, 1, 1, 1, 1⟩

/-- Parameter set with a negative `var8`, exercising the unclamped
`cumulativeEffort` stock (coefficients outside `[0,1]` are accepted by the
engine; §7 of the spec: behavior is whatever the formulas produce). -/
noncomputable def pNegVar8 : Params := ⟨1/2, 0, 1, 0, 1, 1, 1, 1, 1, 1, 1, -1, 1, 1⟩

/-! ### Basic facts about the generator arithmetic -/

theorem szAux_pow_le : ∀ (f n : ℕ), 1 ≤ n → 2 ^ szAux f n ≤ n := by
  intro f
  induction f with
  | zero => intro n h; simpa [szAux] using h
  | succ f ih =>
    intro n h
    rw [szAux]
    split
    · simpa using h
    · rename_i h2
      have hn2 : 1 ≤ n / 2 := by omega
      have := ih (n / 2) hn2
      have hdm : n / 2 * 2 ≤ n := Nat.div_mul_le_self n 2
      calc 2 ^ (szAux f (n / 2) + 1) = 2 ^ szAux f (n / 2) * 2 := by rw [pow_succ]
        _ ≤ n / 2 * 2 := by omega
        _ ≤ n := hdm

theorem szAux_ge : ∀ (k f n : ℕ), 2 ^ k ≤ n → k ≤ f → k ≤ szAux f n := by
  intro k
  induction k with
  | zero => intro f n _ _; exact Nat.zero_le _
  | succ k ih =>
    intro f n hpow hf
    have hn : 2 ≤ n := le_trans (by have := Nat.one_le_two_pow (n := k); omega) hpow
    obtain ⟨f2, rfl⟩ : ∃ f2, f = f2 + 1 := ⟨f - 1, by omega⟩
    rw [szAux, if_neg (by omega)]
    have hhalf : 2 ^ k ≤ n / 2 := by
      rw [Nat.le_div_iff_mul_le (by norm_num)]
      calc 2 ^ k * 2 = 2 ^ (k + 1) := (pow_succ 2 k).symm
        _ ≤ n := hpow
    have := ih f2 (n / 2) hhalf (by omega)
    omega

theorem sz_ge {k n : ℕ} (h : 2 ^ k ≤ n) : k ≤ sz n := by
  have hk : k ≤ n := le_trans (Nat.le_of_lt (Nat.lt_two_pow k)) h
  exact szAux_ge k n n h hk

theorem sz_pow_le {n : ℕ} (h : 1 ≤ n) : 2 ^ sz n ≤ n := szAux_pow_le n n h

theorem fl53_of_lt {n : ℕ} (h : n < 2 ^ 53) : fl53 n = n := by
  rw [fl53, if_pos h]

theorem roundEven_dvd (n d : ℕ) : d ∣ roundEven n d := by
  rw [roundEven]
  split
  · exact dvd_mul_left d _
  · split
    · exact dvd_mul_left d _
    · split
      · exact dvd_mul_left d _
      · exact dvd_mul_left d _

theorem roundEven_ge (n d : ℕ) : n / d * d ≤ roundEven n d := by
  rw [roundEven]
  have h : n / d * d ≤ (n / d + 1) * d := Nat.mul_le_mul_right _ (by omega)
  split
  · exact le_refl _
  · split
    · exact h
    · split
      · exact le_refl _
      · exact h

theorem fl53_even {n : ℕ} (h : 2 ^ 53 ≤ n) : 2 ∣ fl53 n := by
  rw [fl53, if_neg (by omega)]
  have h53 : 53 ≤ sz n := sz_ge h
  have hd : 2 ∣ 2 ^ (sz n - 52) := dvd_pow_self 2 (by omega)
  exact dvd_trans hd (roundEven_dvd _ _)

theorem fl53_ge {n : ℕ} (h : 2 ^ 53 ≤ n) : 2 ^ 53 ≤ fl53 n := by
  rw [fl53, if_neg (by omega)]
  have h53 : 53 ≤ sz n := sz_ge h
  have hszle : 2 ^ sz n ≤ n := sz_pow_le (by omega)
  have hd : 2 ^ (sz n - 52) ∣ 2 ^ sz n := pow_dvd_pow 2 (by omega)
  have hq : 2 ^ 53 ≤ n / 2 ^ (sz n - 52) * 2 ^ (sz n - 52) := by
    have h1 : 2 ^ sz n / 2 ^ (sz n - 52) * 2 ^ (sz n - 52) = 2 ^ sz n :=
      Nat.div_mul_cancel hd
    have h2 : 2 ^ sz n / 2 ^ (sz n - 52) ≤ n / 2 ^ (sz n - 52) :=
      Nat.div_le_div_right hszle
    have h3 : 2 ^ 53 ≤ 2 ^ sz n := Nat.pow_le_pow_right (by norm_num) h53
    calc 2 ^ 53 ≤ 2 ^ sz n := h3
      _ = 2 ^ sz n / 2 ^ (sz n - 52) * 2 ^ (sz n - 52) := h1.symm
      _ ≤ n / 2 ^ (sz n - 52) * 2 ^ (sz n - 52) :=
        Nat.mul_le_mul_right _ h2
  exact le_trans hq (roundEven_ge _ _)

theorem nextSeed_lt (s : ℕ) : nextSeed s < 2 ^ 31 :=
  Nat.mod_lt _ (by norm_num)

/-- Below the 2^53 overflow threshold the binary64 evaluation of
`seed * 1103515245 + 12345` is exact, and the JS update agrees with the
textbook LCG update. -/
theorem nextSeed_exact {s : ℕ} (h : s * lcgA + lcgC < 2 ^ 53) :
    nextSeed s = (s * lcgA + lcgC) % 2 ^ 31 := by
  have hc : lcgC = 12345 := rfl
  have h1 : s * lcgA < 2 ^ 53 := by omega
  unfold nextSeed
  rw [fl53_of_lt h1, fl53_of_lt h]

/-- The updated seed can never be `0x7fffffff` (= 2^31 − 1): for small inputs
the unique 31-bit preimage 230538014 lies beyond the exactness threshold, and
for large inputs the rounded double is even while 2^31 − 1 is odd.
Consequently `next()` never returns exactly 1. -/
theorem nextSeed_ne_top (s : ℕ) : nextSeed s ≠ 2 ^ 31 - 1 := by
  intro h
  by_cases hs : s * lcgA + lcgC < 2 ^ 53
  · rw [nextSeed_exact hs] at h
    have h2 : (230538014 * lcgA + lcgC) % 2 ^ 31 = 2 ^ 31 - 1 := by decide
    have hModEq : s * lcgA + lcgC ≡ 230538014 * lcgA + lcgC [MOD 2 ^ 31] := by
      show (s * lcgA + lcgC) % 2 ^ 31 = (230538014 * lcgA + lcgC) % 2 ^ 31
      rw [h, h2]
    have h3 : s * lcgA ≡ 230538014 * lcgA [MOD 2 ^ 31] :=
      Nat.ModEq.add_right_cancel' lcgC hModEq
    have h4 : 1857678181 * (s * lcgA) ≡ 1857678181 * (230538014 * lcgA) [MOD 2 ^ 31] :=
      h3.mul_left 1857678181
    have h5 : 1857678181 * lcgA * s ≡ 1857678181 * lcgA * 230538014 [MOD 2 ^ 31] := by
      have e1 : 1857678181 * (s * lcgA) = 1857678181 * lcgA * s := by ring
      have e2 : 1857678181 * (230538014 * lcgA) = 1857678181 * lcgA * 230538014 := by ring
      rw [e1, e2] at h4
      exact h4
    have hinv : 1857678181 * lcgA ≡ 1 [MOD 2 ^ 31] := by
      show (1857678181 * lcgA) % 2 ^ 31 = 1 % 2 ^ 31
      decide
    have h6 : s ≡ 230538014 [MOD 2 ^ 31] := by
      have ha : 1 * s ≡ 1857678181 * lcgA * s [MOD 2 ^ 31] := (hinv.mul_right s).symm
      have hb : 1857678181 * lcgA * 230538014 ≡ 1 * 230538014 [MOD 2 ^ 31] :=
        hinv.mul_right 230538014
      have := (ha.trans h5).trans hb
      simpa using this
    have h7 : s % 2 ^ 31 = 230538014 := by
      have := h6
      unfold Nat.ModEq at this
      omega
    have hslt : s < 2 ^ 31 := by
      have : s * 1103515245 + 12345 < 2 ^ 53 := by
        simpa [lcgA, lcgC] using hs
      omega
    have hval : s = 230538014 := by omega
    rw [hval] at hs
    exact absurd hs (by decide)
  · push_neg at hs
    have heven : 2 ∣ fl53 (fl53 (s * lcgA) + lcgC) := by
      by_cases hsa : s * lcgA < 2 ^ 53
      · rw [fl53_of_lt hsa]
        exact fl53_even hs
      · push_neg at hsa
        have h1 : 2 ^ 53 ≤ fl53 (s * lcgA) := fl53_ge hsa
        exact fl53_even (by omega)
    have hdvd : 2 ∣ nextSeed s := by
      unfold nextSeed
      exact (Nat.dvd_mod_iff (by norm_num : (2 : ℕ) ∣ 2 ^ 31)).mpr heven
    rw [h] at hdvd
    exact absurd hdvd (by decide)

theorem nextVal_nonneg (s : ℕ) : 0 ≤ nextVal s := by
  unfold nextVal
  positivity

theorem nextVal_lt_one (s : ℕ) : nextVal s < 1 := by
  unfold nextVal
  rw [div_lt_one (by norm_num : (0 : ℝ) < 2 ^ 31 - 1)]
  have h1 : nextSeed s < 2 ^ 31 - 1 :=
    lt_of_le_of_ne (by have := nextSeed_lt s; omega) (nextSeed_ne_top s)
  calc (nextSeed s : ℝ) < ((2 ^ 31 - 1 : ℕ) : ℝ) := by exact_mod_cast h1
    _ = 2 ^ 31 - 1 := by push_cast; norm_num


/-! ### Rounding to three decimals -/

theorem round3_nonneg {x : ℝ} (h : 0 ≤ x) : 0 ≤ round3 x := by
  unfold round3
  have hf : (0 : ℤ) ≤ ⌊1000 * x + 1 / 2⌋ := by
    apply Int.le_floor.mpr
    push_cast
    linarith
  have h2 : (0 : ℝ) ≤ ((⌊1000 * x + 1 / 2⌋ : ℤ) : ℝ) := by exact_mod_cast hf
  linarith

theorem round3_mono {x y : ℝ} (h : x ≤ y) : round3 x ≤ round3 y := by
  unfold round3
  have hf : ⌊1000 * x + 1 / 2⌋ ≤ ⌊1000 * y + 1 / 2⌋ :=
    Int.floor_le_floor (by linarith)
  have h2 : ((⌊1000 * x + 1 / 2⌋ : ℤ) : ℝ) ≤ ((⌊1000 * y + 1 / 2⌋ : ℤ) : ℝ) := by
    exact_mod_cast hf
  linarith

theorem round3_zero : round3 0 = 0 := by
  unfold round3
  norm_num

theorem round3_one : round3 1 = 1 := by
  unfold round3
  norm_num

theorem round3_half : round3 (1 / 2) = 1 / 2 := by
  unfold round3
  norm_num

/-! ### Projection lemmas for the samplers -/

theorem nextNormal_fst (s : ℕ) (mean std : ℝ) :
    (nextNormal s mean std).1 = nextSeed (nextSeed s) := rfl

theorem nextNormal_val (s : ℕ) (mean std : ℝ) :
    (nextNormal s mean std).2 =
      mean + Real.sqrt (-2 * Real.log ((nextSeed s : ℝ) / (2 ^ 31 - 1))) *
        Real.cos (2 * Real.pi * ((nextSeed (nextSeed s) : ℝ) / (2 ^ 31 - 1))) * std := rfl

theorem nextTruncatedNormal_fst (s : ℕ) (mean std lo hi : ℝ) :
    (nextTruncatedNormal s mean std lo hi).1 = nextSeed (nextSeed s) := rfl

theorem nextTruncatedNormal_val (s : ℕ) (mean std lo hi : ℝ) :
    (nextTruncatedNormal s mean std lo hi).2 =
      max lo (min hi (nextNormal s mean std).2) := rfl

theorem nextPoisson_fst (s : ℕ) (mean lo hi : ℝ) :
    (nextPoisson s mean lo hi).1 = nextSeed s := rfl

theorem nextPoisson_val (s : ℕ) (mean lo hi : ℝ) :
    (nextPoisson s mean lo hi).2 =
      max lo (min hi (if (nextSeed s : ℝ) / (2 ^ 31 - 1) < mean then (1 : ℝ) else 0)) := rfl

/-- The clamped draw never goes below the lower bound. -/
theorem trunc_ge (s : ℕ) (mean std lo hi : ℝ) :
    lo ≤ (nextTruncatedNormal s mean std lo hi).2 :=
  le_max_left _ _

/-- The clamped draw never exceeds the upper bound (when the range is sane). -/
theorem trunc_le (s : ℕ) (mean std : ℝ) {lo hi : ℝ} (h : lo ≤ hi) :
    (nextTruncatedNormal s mean std lo hi).2 ≤ hi :=
  max_le h (min_le_left _ _)

theorem poisson_ge (s : ℕ) (mean lo hi : ℝ) : lo ≤ (nextPoisson s mean lo hi).2 :=
  le_max_left _ _

/-! ### Sign of concrete Box–Muller draws

The sign of `z = sqrt(-2 ln u1) * cos(2π u2)` is the sign of `cos(2π u2)`:
nonpositive exactly when `u2` lies in the middle two quartiles `[1/4, 3/4]`.
Clamped into `[0, ambition]`, a nonpositive draw lands exactly on 0. -/

theorem cos_quartile_nonpos {u : ℝ} (h1 : 1 / 4 ≤ u) (h2 : u ≤ 3 / 4) :
    Real.cos (2 * Real.pi * u) ≤ 0 := by
  have hπ := Real.pi_pos
  apply Real.cos_nonpos_of_pi_div_two_le_of_le
  · nlinarith
  · nlinarith

/-- When the second uniform draw of the stream seeded `s` falls in the middle
two quartiles, the truncated normal draw clamps to exactly 0. -/
theorem truncQuartileZero (s : ℕ) {amb : ℝ} (hamb : 0 ≤ amb)
    (h1 : 2 ^ 31 - 1 ≤ 4 * nextSeed (nextSeed s))
    (h2 : 4 * nextSeed (nextSeed s) ≤ 3 * (2 ^ 31 - 1)) :
    (nextTruncatedNormal s 0 amb 0 amb).2 = 0 := by
  rw [nextTruncatedNormal_val, nextNormal_val]
  have hD : (0 : ℝ) < 2 ^ 31 - 1 := by norm_num
  set u2 : ℝ := (nextSeed (nextSeed s) : ℝ) / (2 ^ 31 - 1) with hu2
  have h1r : ((2 : ℝ) ^ 31 - 1) ≤ 4 * (nextSeed (nextSeed s) : ℝ) := by
    have h1n : ((2 ^ 31 - 1 : ℕ) : ℝ) ≤ ((4 * nextSeed (nextSeed s) : ℕ) : ℝ) := by
      exact_mod_cast h1
    push_cast at h1n
    linarith
  have h2r : 4 * (nextSeed (nextSeed s) : ℝ) ≤ 3 * ((2 : ℝ) ^ 31 - 1) := by
    have h2n : ((4 * nextSeed (nextSeed s) : ℕ) : ℝ) ≤ ((3 * (2 ^ 31 - 1) : ℕ) : ℝ) := by
      exact_mod_cast h2
    push_cast at h2n
    linarith
  have hu2a : 1 / 4 ≤ u2 := by
    rw [hu2, le_div_iff₀ hD]
    linarith
  have hu2b : u2 ≤ 3 / 4 := by
    rw [hu2, div_le_iff₀ hD]
    linarith
  have hcos : Real.cos (2 * Real.pi * u2) ≤ 0 := cos_quartile_nonpos hu2a hu2b
  have hsqrt : 0 ≤ Real.sqrt (-2 * Real.log ((nextSeed s : ℝ) / (2 ^ 31 - 1))) :=
    Real.sqrt_nonneg _
  have hz : 0 + Real.sqrt (-2 * Real.log ((nextSeed s : ℝ) / (2 ^ 31 - 1))) *
      Real.cos (2 * Real.pi * u2) * amb ≤ 0 := by
    have hsc : Real.sqrt (-2 * Real.log ((nextSeed s : ℝ) / (2 ^ 31 - 1))) *
        Real.cos (2 * Real.pi * u2) ≤ 0 := by
      have := mul_le_mul_of_nonneg_left hcos hsqrt
      simpa using this
    have hfin := mul_le_mul_of_nonneg_right hsc hamb
    rw [zero_mul] at hfin
    linarith
  have hmin : min amb (0 + Real.sqrt (-2 * Real.log ((nextSeed s : ℝ) / (2 ^ 31 - 1))) *
      Real.cos (2 * Real.pi * u2) * amb) ≤ 0 :=
    le_trans (min_le_right _ _) hz
  exact max_eq_left hmin

/-- When the first uniform draw is at most 9/10 and the second lies in the top
25th of the unit interval, the Box–Muller value is comfortably positive: the
truncated normal draw with bounds `[0, 1/2]` is at least 9/50. -/
theorem truncNearOnePos (s : ℕ)
    (h0 : 1 ≤ nextSeed s)
    (h1 : 10 * nextSeed s ≤ 9 * (2 ^ 31 - 1))
    (h2 : 24 * (2 ^ 31 - 1) ≤ 25 * nextSeed (nextSeed s)) :
    9 / 50 ≤ (nextTruncatedNormal s 0 (1 / 2) 0 (1 / 2)).2 := by
  rw [nextTruncatedNormal_val, nextNormal_val]
  have hD : (0 : ℝ) < 2 ^ 31 - 1 := by norm_num
  set u1 : ℝ := (nextSeed s : ℝ) / (2 ^ 31 - 1) with hu1
  set u2 : ℝ := (nextSeed (nextSeed s) : ℝ) / (2 ^ 31 - 1) with hu2
  have hu1pos : 0 < u1 := by
    rw [hu1]
    apply div_pos _ hD
    exact_mod_cast h0
  have hu1le : u1 ≤ 9 / 10 := by
    rw [hu1, div_le_iff₀ hD]
    have h1r : 10 * (nextSeed s : ℝ) ≤ 9 * ((2 : ℝ) ^ 31 - 1) := by
      have h1n := (Nat.cast_le (α := ℝ)).mpr h1
      push_cast at h1n
      linarith
    linarith
  have hu2ge : 24 / 25 ≤ u2 := by
    rw [hu2, le_div_iff₀ hD]
    have h2r : 24 * ((2 : ℝ) ^ 31 - 1) ≤ 25 * (nextSeed (nextSeed s) : ℝ) := by
      have h2n := (Nat.cast_le (α := ℝ)).mpr h2
      push_cast at h2n
      linarith
    linarith
  have hu2le : u2 ≤ 1 := by
    rw [hu2, div_le_one hD]
    have hlt := nextSeed_lt (nextSeed s)
    have hle : (nextSeed (nextSeed s) : ℝ) ≤ ((2 ^ 31 - 1 : ℕ) : ℝ) := by
      exact_mod_cast (by omega : nextSeed (nextSeed s) ≤ 2 ^ 31 - 1)
    push_cast at hle
    linarith
  have hlog : Real.log u1 ≤ u1 - 1 := Real.log_le_sub_one_of_pos hu1pos
  have hsq : 2 / 5 ≤ Real.sqrt (-2 * Real.log u1) :=
    Real.le_sqrt_of_sq_le (by nlinarith)
  have hπlt : Real.pi < 63 / 20 := by
    have hp := Real.pi_lt_d2
    norm_num at hp
    linarith
  have hπ := Real.pi_pos
  have hcos : 9 / 10 ≤ Real.cos (2 * Real.pi * u2) := by
    have hπu : 2 * Real.pi * u2 = 2 * Real.pi - 2 * Real.pi * (1 - u2) := by ring
    rw [hπu, Real.cos_two_pi_sub]
    have hx0 : 0 ≤ 2 * Real.pi * (1 - u2) := by nlinarith
    have hxle : 2 * Real.pi * (1 - u2) ≤ 63 / 250 := by nlinarith
    have hc := @Real.one_sub_sq_div_two_le_cos (2 * Real.pi * (1 - u2))
    have hsq2 : (2 * Real.pi * (1 - u2)) ^ 2 ≤ (63 / 250) ^ 2 := by
      have := mul_le_mul hxle hxle hx0 (by norm_num)
      calc (2 * Real.pi * (1 - u2)) ^ 2
          = (2 * Real.pi * (1 - u2)) * (2 * Real.pi * (1 - u2)) := sq ..
        _ ≤ (63 / 250) * (63 / 250) := this
        _ = (63 / 250) ^ 2 := (sq (63 / 250 : ℝ)).symm
    linarith
  have hz : 9 / 50 ≤ 0 + Real.sqrt (-2 * Real.log u1) *
      Real.cos (2 * Real.pi * u2) * (1 / 2) := by
    have hsn : 0 ≤ Real.sqrt (-2 * Real.log u1) := Real.sqrt_nonneg _
    nlinarith
  calc (9 : ℝ) / 50 ≤ min (1 / 2) (0 + Real.sqrt (-2 * Real.log u1) *
        Real.cos (2 * Real.pi * u2) * (1 / 2)) := le_min (by norm_num) hz
    _ ≤ max 0 (min (1 / 2) (0 + Real.sqrt (-2 * Real.log u1) *
        Real.cos (2 * Real.pi * u2) * (1 / 2))) := le_max_right _ _

/-! ### Structure of the recorded trajectory -/

/-- Every point the loop records carries the clamped (hence nonnegative)
post-update motivation, strain and progress, rounded to three decimals. -/
theorem go_mem_nonneg (p : Params) (ft : ℤ) :
    ∀ (n t : ℕ) (st : State) (sd : Seeds) (pt : Point), pt ∈ go p ft t n st sd →
      0 ≤ pt.motivation ∧ 0 ≤ pt.strain ∧ 0 ≤ pt.performance := by
  intro n
  induction n with
  | zero =>
    intro t st sd pt h
    simp [go] at h
  | succ n ih =>
    intro t st sd pt h
    simp only [go] at h
    rcases List.mem_append.mp h with h | h
    · by_cases ht : t % 5 = 0
      · rw [if_pos ht] at h
        simp only [List.mem_singleton] at h
        subst h
        refine ⟨?_, ?_, ?_⟩
        · exact round3_nonneg (le_max_left _ _)
        · exact round3_nonneg (le_max_left _ _)
        · exact round3_nonneg (le_max_left _ _)
      · rw [if_neg ht] at h
        simp at h
    · exact ih (t + 1) _ _ pt h

/-- Period labels recorded by the loop starting at period `t` with `n`
iterations left: the multiples of 5 among `t, t+1, …, t+n-1`. -/
theorem go_map_period (p : Params) (ft : ℤ) :
    ∀ (n t : ℕ) (st : State) (sd : Seeds),
      (go p ft t n st sd).map Point.period
        = ((List.range n).map (fun i => t + i)).filter (fun x => x % 5 == 0) := by
  intro n
  induction n with
  | zero =>
    intro t st sd
    simp [go]
  | succ n ih =>
    intro t st sd
    simp only [go, List.map_append]
    rw [ih (t + 1), List.range_succ_eq_map, List.map_cons, List.map_map]
    have hshift : (List.range n).map ((fun i => t + i) ∘ Nat.succ)
        = (List.range n).map (fun i => t + 1 + i) := by
      apply List.map_congr_left
      intro i _
      simp [Function.comp, Nat.succ_eq_add_one]
      omega
    rw [hshift, List.filter_cons]
    by_cases ht : t % 5 = 0
    · have htb : ((t + 0) % 5 == 0) = true := by simpa using ht
      rw [if_pos ht]
      simp only [htb, if_pos]
      simp [mkPoint]
    · have htb : ¬((t + 0) % 5 == 0) = true := by simpa using ht
      rw [if_neg ht]
      simp only [if_neg htb]
      simp

/-! ### Projection lemmas for one loop iteration

Each lemma restates one assignment of the loop body (lines 74–135 of the
source) as an equation about the corresponding field. -/

theorem stepFlows_progressSensitivity (p : Params) (ft : ℤ) (t : ℕ) (st : State) (sd : Seeds) :
    (stepFlows p ft t st sd).1.progressSensitivity = (t : ℝ) / (ft : ℝ) := rfl

theorem stepFlows_relativeProgress (p : Params) (ft : ℤ) (t : ℕ) (st : State) (sd : Seeds) :
    (stepFlows p ft t st sd).1.relativeProgress
      = if st.cumulativeEffort = 0 then 0 else st.progress / st.cumulativeEffort := rfl

theorem stepFlows_resources (p : Params) (ft : ℤ) (t : ℕ) (st : State) (sd : Seeds) :
    (stepFlows p ft t st sd).1.resources
      = p.ambition * (1 - (stepFlows p ft t st sd).1.progressSensitivity)
        + (stepFlows p ft t st sd).1.relativeProgress
          * (stepFlows p ft t st sd).1.progressSensitivity := rfl

theorem stepFlows_challengeStressors (p : Params) (ft : ℤ) (t : ℕ) (st : State) (sd : Seeds) :
    (stepFlows p ft t st sd).1.challengeStressors
      = if p.ambition = 0 then 0
        else (nextTruncatedNormal sd.challenge 0 p.ambition 0 p.ambition).2 := rfl

theorem stepFlows_hindranceStressors (p : Params) (ft : ℤ) (t : ℕ) (st : State) (sd : Seeds) :
    (stepFlows p ft t st sd).1.hindranceStressors
      = if p.ambition = 0 then 0
        else (nextTruncatedNormal sd.hindrance 0 p.ambition 0 p.ambition).2 := rfl

theorem stepFlows_recovery (p : Params) (ft : ℤ) (t : ℕ) (st : State) (sd : Seeds) :
    (stepFlows p ft t st sd).1.recovery
      = if p.ambition = 0 then 1
        else 1 - (1 - p.selfRegulation)
          * (p.var2 * (stepFlows p ft t st sd).1.challengeStressors
            + p.var3 * (stepFlows p ft t st sd).1.hindranceStressors)
          / (2 * p.ambition) := rfl

theorem stepFlows_motivationIncrease (p : Params) (ft : ℤ) (t : ℕ) (st : State) (sd : Seeds) :
    (stepFlows p ft t st sd).1.motivationIncrease
      = max (stepFlows p ft t st sd).1.challengeStressors (stepFlows p ft t st sd).1.resources
        * (stepFlows p ft t st sd).1.recovery * p.var1 := rfl

theorem stepFlows_motivationDecrease (p : Params) (ft : ℤ) (t : ℕ) (st : State) (sd : Seeds) :
    (stepFlows p ft t st sd).1.motivationDecrease
      = min st.motivation
          ((1 - p.selfRegulation) * (stepFlows p ft t st sd).1.hindranceStressors * p.var7) := rfl

theorem stepFlows_strainIncrease (p : Params) (ft : ℤ) (t : ℕ) (st : State) (sd : Seeds) :
    (stepFlows p ft t st sd).1.strainIncrease
      = if p.ambition = 0 then 0
        else (1 - p.selfRegulation)
          * (p.var4 * (stepFlows p ft t st sd).1.challengeStressors
            + p.var5 * (stepFlows p ft t st sd).1.hindranceStressors)
          / (2 * p.ambition) := rfl

theorem stepFlows_strainDecrease (p : Params) (ft : ℤ) (t : ℕ) (st : State) (sd : Seeds) :
    (stepFlows p ft t st sd).1.strainDecrease
      = min st.strain
          ((stepFlows p ft t st sd).1.resources * (stepFlows p ft t st sd).1.recovery * p.var6) :=
  rfl

theorem stepFlows_effort (p : Params) (ft : ℤ) (t : ℕ) (st : State) (sd : Seeds) :
    (stepFlows p ft t st sd).1.effort
      = if st.motivation = 0 then 0
        else p.var8 * (1 / (1 + Real.exp (st.strain - st.motivation))) := rfl

theorem stepFlows_advanceRandom (p : Params) (ft : ℤ) (t : ℕ) (st : State) (sd : Seeds) :
    (stepFlows p ft t st sd).1.advanceRandom
      = (nextTruncatedNormal sd.advance 0 p.ambition 0 p.ambition).2 := rfl

theorem stepFlows_advance (p : Params) (ft : ℤ) (t : ℕ) (st : State) (sd : Seeds) :
    (stepFlows p ft t st sd).1.advance
      = if p.skill = 0 then 0
        else (stepFlows p ft t st sd).1.effort * p.skill
          * (stepFlows p ft t st sd).1.advanceRandom := rfl

theorem stepFlows_setbackPoisson (p : Params) (ft : ℤ) (t : ℕ) (st : State) (sd : Seeds) :
    (stepFlows p ft t st sd).1.setbackPoisson
      = (nextPoisson sd.setbackPoisson p.dynamism 0 1).2 := rfl

theorem stepFlows_setbackRandom (p : Params) (ft : ℤ) (t : ℕ) (st : State) (sd : Seeds) :
    (stepFlows p ft t st sd).1.setbackRandom
      = (nextTruncatedNormal sd.setback 0 p.ambition 0 p.ambition).2 := rfl

theorem stepFlows_setback (p : Params) (ft : ℤ) (t : ℕ) (st : State) (sd : Seeds) :
    (stepFlows p ft t st sd).1.setback
      = (stepFlows p ft t st sd).1.setbackPoisson
        * min st.progress (stepFlows p ft t st sd).1.setbackRandom := rfl

theorem stepFlows_seed_advance (p : Params) (ft : ℤ) (t : ℕ) (st : State) (sd : Seeds) :
    (stepFlows p ft t st sd).2.advance = nextSeed (nextSeed sd.advance) := rfl

theorem stepFlows_seed_setback (p : Params) (ft : ℤ) (t : ℕ) (st : State) (sd : Seeds) :
    (stepFlows p ft t st sd).2.setback = nextSeed (nextSeed sd.setback) := rfl

theorem stepFlows_seed_setbackPoisson (p : Params) (ft : ℤ) (t : ℕ) (st : State) (sd : Seeds) :
    (stepFlows p ft t st sd).2.setbackPoisson = nextSeed sd.setbackPoisson := rfl

theorem stepFlows_seed_challenge (p : Params) (ft : ℤ) (t : ℕ) (st : State) (sd : Seeds) :
    (stepFlows p ft t st sd).2.challenge
      = if p.ambition = 0 then sd.challenge else nextSeed (nextSeed sd.challenge) := rfl

theorem stepFlows_seed_hindrance (p : Params) (ft : ℤ) (t : ℕ) (st : State) (sd : Seeds) :
    (stepFlows p ft t st sd).2.hindrance
      = if p.ambition = 0 then sd.hindrance else nextSeed (nextSeed sd.hindrance) := rfl

theorem updateState_motivation (st : State) (f : Flows) :
    (updateState st f).motivation
      = max 0 (st.motivation + f.motivationIncrease - f.motivationDecrease) := rfl

theorem updateState_strain (st : State) (f : Flows) :
    (updateState st f).strain
      = max 0 (st.strain + f.strainIncrease - f.strainDecrease) := rfl

theorem updateState_cumulativeEffort (st : State) (f : Flows) :
    (updateState st f).cumulativeEffort = st.cumulativeEffort + f.effort := rfl

theorem updateState_progress (st : State) (f : Flows) :
    (updateState st f).progress = max 0 (st.progress + f.advance - f.setback) := rfl

theorem mkPoint_period (p : Params) (t : ℕ) (f : Flows) (st : State) :
    (mkPoint p t f st).period = t := rfl

theorem mkPoint_motivation (p : Params) (t : ℕ) (f : Flows) (st : State) :
    (mkPoint p t f st).motivation = round3 st.motivation := rfl

theorem mkPoint_strain (p : Params) (t : ℕ) (f : Flows) (st : State) :
    (mkPoint p t f st).strain = round3 st.strain := rfl

theorem mkPoint_effort (p : Params) (t : ℕ) (f : Flows) (st : State) :
    (mkPoint p t f st).effort = round3 f.effort := rfl

theorem mkPoint_performance (p : Params) (t : ℕ) (f : Flows) (st : State) :
    (mkPoint p t f st).performance = round3 st.progress := rfl

theorem mkPoint_recovery (p : Params) (t : ℕ) (f : Flows) (st : State) :
    (mkPoint p t f st).recovery = round3 f.recovery := rfl

theorem mkPoint_challengeStressors (p : Params) (t : ℕ) (f : Flows) (st : State) :
    (mkPoint p t f st).challengeStressors = round3 f.challengeStressors := rfl

theorem mkPoint_hindranceStressors (p : Params) (t : ℕ) (f : Flows) (st : State) :
    (mkPoint p t f st).hindranceStressors = round3 f.hindranceStressors := rfl

/-! ### The first recorded point and seed invariants -/

/-- With a nonnegative horizon the loop runs at least once, and period 0 is
always a sampling period, so the trajectory starts with the period-0 point. -/
theorem run_head (p : Params) (ft : ℤ) (hft : 0 ≤ ft) (seed : Option ℕ) (e : ℕ) :
    (runSimulation p ft seed e).head?
      = some (mkPoint p 0 (stepFlows p ft 0 initState (mkSeeds (baseOf seed e))).1
          (updateState initState (stepFlows p ft 0 initState (mkSeeds (baseOf seed e))).1)) := by
  rw [runSimulation]
  obtain ⟨m, hm⟩ : ∃ m, iterCount ft = m + 1 := ⟨iterCount ft - 1, by unfold iterCount; omega⟩
  rw [hm]
  simp [go]

/-- With zero ambition the challenge and hindrance streams are never advanced:
their seeds at the end of the run equal their initial values. -/
theorem goAux_seeds_const (p : Params) (hamb : p.ambition = 0) (ft : ℤ) :
    ∀ (n t : ℕ) (st : State) (sd : Seeds),
      (goAux p ft t n st sd).2.challenge = sd.challenge ∧
      (goAux p ft t n st sd).2.hindrance = sd.hindrance := by
  intro n
  induction n with
  | zero => intro t st sd; exact ⟨rfl, rfl⟩
  | succ n ih =>
    intro t st sd
    simp only [goAux]
    have h := ih (t + 1) (updateState st (stepFlows p ft t st sd).1) (stepFlows p ft t st sd).2
    refine ⟨?_, ?_⟩
    · rw [h.1, stepFlows_seed_challenge, if_pos hamb]
    · rw [h.2, stepFlows_seed_hindrance, if_pos hamb]

/-- With zero ambition every recorded point has zero challenge and hindrance
stressors and recovery exactly 1. -/
theorem go_mem_zero_ambition (p : Params) (hamb : p.ambition = 0) (ft : ℤ) :
    ∀ (n t : ℕ) (st : State) (sd : Seeds) (pt : Point), pt ∈ go p ft t n st sd →
      pt.challengeStressors = 0 ∧ pt.hindranceStressors = 0 ∧ pt.recovery = 1 := by
  intro n
  induction n with
  | zero =>
    intro t st sd pt h
    simp [go] at h
  | succ n ih =>
    intro t st sd pt h
    simp only [go] at h
    rcases List.mem_append.mp h with h | h
    · by_cases ht : t % 5 = 0
      · rw [if_pos ht] at h
        simp only [List.mem_singleton] at h
        subst h
        refine ⟨?_, ?_, ?_⟩
        · rw [mkPoint_challengeStressors, stepFlows_challengeStressors, if_pos hamb,
            round3_zero]
        · rw [mkPoint_hindranceStressors, stepFlows_hindranceStressors, if_pos hamb,
            round3_zero]
        · rw [mkPoint_recovery, stepFlows_recovery, if_pos hamb, round3_one]
      · rw [if_neg ht] at h
        simp at h
    · exact ih (t + 1) _ _ pt h

/-! ### Option-valued traversal of the run list -/

theorem mapM_option_isSome {α β : Type} (f : α → Option β) :
    ∀ l : List α, (∀ a ∈ l, (f a).isSome) → (l.mapM f).isSome := by
  intro l
  induction l with
  | nil => intro _; rfl
  | cons x l ih =>
    intro h
    rw [List.mapM_cons]
    obtain ⟨y, hy⟩ := Option.isSome_iff_exists.mp (h x (List.mem_cons_self x l))
    obtain ⟨z, hz⟩ := Option.isSome_iff_exists.mp (ih fun a ha => h a (List.mem_cons_of_mem x ha))
    rw [hy, hz]
    rfl

theorem mapM_option_head_none {α β : Type} (f : α → Option β) (x : α) (l : List α)
    (h : f x = none) : (x :: l).mapM f = none := by
  rw [List.mapM_cons, h]
  rfl

/-! ### The period-0 point of the seed-42 fixture run

With seed 42 the challenge stream starts at 2042 and the hindrance stream at
3042; for both, the second uniform draw lands in the middle two quartiles, so
both truncated normal draws clamp to 0.  Period 0 then computes
`resources = recovery·ambition = 1/2`, a motivation inflow of 1/2, and zero
strain flows, so the recorded period-0 point has motivation 0.5 and strain 0. -/

theorem step42_flows :
    (stepFlows p42 500 0 initState (mkSeeds 42)).1.challengeStressors = 0 ∧
    (stepFlows p42 500 0 initState (mkSeeds 42)).1.hindranceStressors = 0 ∧
    (stepFlows p42 500 0 initState (mkSeeds 42)).1.resources = 1 / 2 ∧
    (stepFlows p42 500 0 initState (mkSeeds 42)).1.recovery = 1 ∧
    (stepFlows p42 500 0 initState (mkSeeds 42)).1.motivationIncrease = 1 / 2 ∧
    (stepFlows p42 500 0 initState (mkSeeds 42)).1.motivationDecrease = 0 ∧
    (stepFlows p42 500 0 initState (mkSeeds 42)).1.strainIncrease = 0 ∧
    (stepFlows p42 500 0 initState (mkSeeds 42)).1.strainDecrease = 0 := by
  have hamb : p42.ambition = 1 / 2 := rfl
  have hne : p42.ambition ≠ 0 := by rw [hamb]; norm_num
  have hch : (stepFlows p42 500 0 initState (mkSeeds 42)).1.challengeStressors = 0 := by
    rw [stepFlows_challengeStressors, if_neg hne, hamb,
      show (mkSeeds 42).challenge = 2042 from rfl]
    exact truncQuartileZero 2042 (by norm_num) (by decide) (by decide)
  have hhi : (stepFlows p42 500 0 initState (mkSeeds 42)).1.hindranceStressors = 0 := by
    rw [stepFlows_hindranceStressors, if_neg hne, hamb,
      show (mkSeeds 42).hindrance = 3042 from rfl]
    exact truncQuartileZero 3042 (by norm_num) (by decide) (by decide)
  have hps : (stepFlows p42 500 0 initState (mkSeeds 42)).1.progressSensitivity = 0 := by
    rw [stepFlows_progressSensitivity]
    norm_num
  have hrp : (stepFlows p42 500 0 initState (mkSeeds 42)).1.relativeProgress = 0 := by
    rw [stepFlows_relativeProgress, if_pos (show initState.cumulativeEffort = 0 from rfl)]
  have hres : (stepFlows p42 500 0 initState (mkSeeds 42)).1.resources = 1 / 2 := by
    rw [stepFlows_resources, hps, hrp, hamb]
    norm_num
  have hrec : (stepFlows p42 500 0 initState (mkSeeds 42)).1.recovery = 1 := by
    rw [stepFlows_recovery, if_neg hne, hch, hhi]
    norm_num
  have hmi : (stepFlows p42 500 0 initState (mkSeeds 42)).1.motivationIncrease = 1 / 2 := by
    rw [stepFlows_motivationIncrease, hch, hres, hrec,
      show p42.var1 = 1 from rfl, max_eq_right (by norm_num : (0 : ℝ) ≤ 1 / 2)]
    norm_num
  have hmd : (stepFlows p42 500 0 initState (mkSeeds 42)).1.motivationDecrease = 0 := by
    rw [stepFlows_motivationDecrease, hhi, show initState.motivation = 0 from rfl]
    simp
  have hsi : (stepFlows p42 500 0 initState (mkSeeds 42)).1.strainIncrease = 0 := by
    rw [stepFlows_strainIncrease, if_neg hne, hch, hhi]
    simp
  have hsd : (stepFlows p42 500 0 initState (mkSeeds 42)).1.strainDecrease = 0 := by
    rw [stepFlows_strainDecrease, show initState.strain = 0 from rfl, hres, hrec,
      show p42.var6 = 1 from rfl, min_eq_left (by norm_num)]
  exact ⟨hch, hhi, hres, hrec, hmi, hmd, hsi, hsd⟩

theorem run42_state :
    (updateState initState (stepFlows p42 500 0 initState (mkSeeds 42)).1).motivation = 1 / 2 ∧
    (updateState initState (stepFlows p42 500 0 initState (mkSeeds 42)).1).strain = 0 := by
  obtain ⟨hch, hhi, hres, hrec, hmi, hmd, hsi, hsd⟩ := step42_flows
  constructor
  · rw [updateState_motivation, hmi, hmd, show initState.motivation = 0 from rfl,
      show (0 : ℝ) + 1 / 2 - 0 = 1 / 2 by ring, max_eq_right (by norm_num : (0 : ℝ) ≤ 1 / 2)]
  · rw [updateState_strain, hsi, hsd, show initState.strain = 0 from rfl,
      show (0 : ℝ) + 0 - 0 = 0 by ring, max_self]

theorem run42_head :
    (runSimulation p42 500 (some 42) 0).head?.map Point.motivation = some (1 / 2) ∧
    (runSimulation p42 500 (some 42) 0).head?.map Point.strain = some 0 := by
  have hh := run_head p42 500 (by norm_num) (some 42) 0
  rw [show baseOf (some 42) 0 = 42 from rfl] at hh
  obtain ⟨hm, hs⟩ := run42_state
  constructor
  · rw [hh, Option.map_some', mkPoint_motivation, hm, round3_half]
  · rw [hh, Option.map_some', mkPoint_strain, hs, round3_zero]

/-! ### A run in which cumulativeEffort goes negative

With `selfRegulation = 1` the period-0 inflow is deterministic (`1/2`) no
matter what the stressor draws are, so after period 0 motivation is `1/2` and
strain 0; with `var8 = -1` the period-1 effort is strictly negative, and the
unclamped `cumulativeEffort` stock ends below 0. -/

theorem negvar8_state1 :
    (updateState initState (stepFlows pNegVar8 1 0 initState (mkSeeds 7)).1).motivation = 1 / 2 ∧
    (updateState initState (stepFlows pNegVar8 1 0 initState (mkSeeds 7)).1).strain = 0 ∧
    (updateState initState
      (stepFlows pNegVar8 1 0 initState (mkSeeds 7)).1).cumulativeEffort = 0 := by
  have hamb : pNegVar8.ambition = 1 / 2 := rfl
  have hne : pNegVar8.ambition ≠ 0 := by rw [hamb]; norm_num
  have hsr : pNegVar8.selfRegulation = 1 := rfl
  have hch_ub : (stepFlows pNegVar8 1 0 initState (mkSeeds 7)).1.challengeStressors ≤ 1 / 2 := by
    rw [stepFlows_challengeStressors, if_neg hne, hamb]
    exact trunc_le _ _ _ (by norm_num)
  have hps : (stepFlows pNegVar8 1 0 initState (mkSeeds 7)).1.progressSensitivity = 0 := by
    rw [stepFlows_progressSensitivity]
    norm_num
  have hrp : (stepFlows pNegVar8 1 0 initState (mkSeeds 7)).1.relativeProgress = 0 := by
    rw [stepFlows_relativeProgress, if_pos (show initState.cumulativeEffort = 0 from rfl)]
  have hres : (stepFlows pNegVar8 1 0 initState (mkSeeds 7)).1.resources = 1 / 2 := by
    rw [stepFlows_resources, hps, hrp, hamb]
    norm_num
  have hrec : (stepFlows pNegVar8 1 0 initState (mkSeeds 7)).1.recovery = 1 := by
    rw [stepFlows_recovery, if_neg hne, hsr]
    simp
  have hmi : (stepFlows pNegVar8 1 0 initState (mkSeeds 7)).1.motivationIncrease = 1 / 2 := by
    rw [stepFlows_motivationIncrease, hres, hrec, show pNegVar8.var1 = 1 from rfl,
      max_eq_right hch_ub]
    norm_num
  have hmd : (stepFlows pNegVar8 1 0 initState (mkSeeds 7)).1.motivationDecrease = 0 := by
    rw [stepFlows_motivationDecrease, hsr, show initState.motivation = 0 from rfl]
    simp
  have hsi : (stepFlows pNegVar8 1 0 initState (mkSeeds 7)).1.strainIncrease = 0 := by
    rw [stepFlows_strainIncrease, if_neg hne, hsr]
    simp
  have hsd : (stepFlows pNegVar8 1 0 initState (mkSeeds 7)).1.strainDecrease = 0 := by
    rw [stepFlows_strainDecrease, show initState.strain = 0 from rfl, hres, hrec,
      show pNegVar8.var6 = 1 from rfl, min_eq_left (by norm_num)]
  have heff : (stepFlows pNegVar8 1 0 initState (mkSeeds 7)).1.effort = 0 := by
    rw [stepFlows_effort, if_pos (show initState.motivation = 0 from rfl)]
  refine ⟨?_, ?_, ?_⟩
  · rw [updateState_motivation, hmi, hmd, show initState.motivation = 0 from rfl,
      show (0 : ℝ) + 1 / 2 - 0 = 1 / 2 by ring, max_eq_right (by norm_num : (0 : ℝ) ≤ 1 / 2)]
  · rw [updateState_strain, hsi, hsd, show initState.strain = 0 from rfl,
      show (0 : ℝ) + 0 - 0 = 0 by ring, max_self]
  · rw [updateState_cumulativeEffort, heff, show initState.cumulativeEffort = 0 from rfl]
    norm_num

/-! ### Distinct entropies can produce observably different trajectories -/

theorem goAux_succ (p : Params) (ft : ℤ) (t n : ℕ) (st : State) (sd : Seeds) :
    goAux p ft t (n + 1) st sd
      = goAux p ft (t + 1) n (updateState st (stepFlows p ft t st sd).1)
          (stepFlows p ft t st sd).2 := rfl

theorem goAux_zero_fst (p : Params) (ft : ℤ) (t : ℕ) (st : State) (sd : Seeds) :
    (goAux p ft t 0 st sd).1 = st := rfl

/-- Two entropy values whose challenge streams fall on opposite sides of the
Box–Muller sign boundary give different recorded period-0 challenge stressors,
hence different trajectories, for the fixture parameters with `seed = 0`. -/
theorem run_ch_ne (eA eB : ℕ)
    (hA1 : 2 ^ 31 - 1 ≤ 4 * nextSeed (nextSeed (eA + 2000)))
    (hA2 : 4 * nextSeed (nextSeed (eA + 2000)) ≤ 3 * (2 ^ 31 - 1))
    (hB0 : 1 ≤ nextSeed (eB + 2000))
    (hB1 : 10 * nextSeed (eB + 2000) ≤ 9 * (2 ^ 31 - 1))
    (hB2 : 24 * (2 ^ 31 - 1) ≤ 25 * nextSeed (nextSeed (eB + 2000))) :
    runSimulation p42 1 (some 0) eA ≠ runSimulation p42 1 (some 0) eB := by
  intro hEq
  have hhA := run_head p42 1 (by norm_num) (some 0) eA
  have hhB := run_head p42 1 (by norm_num) (some 0) eB
  rw [hEq] at hhA
  have hpt := Option.some.inj (hhA.symm.trans hhB)
  have hch := congrArg Point.challengeStressors hpt
  have hne : p42.ambition ≠ 0 := by
    rw [show p42.ambition = 1 / 2 from rfl]
    norm_num
  rw [mkPoint_challengeStressors, mkPoint_challengeStressors,
    stepFlows_challengeStressors, stepFlows_challengeStressors,
    if_neg hne, if_neg hne,
    show baseOf (some 0) eA = eA from rfl, show baseOf (some 0) eB = eB from rfl,
    show (mkSeeds eA).challenge = eA + 2000 from rfl,
    show (mkSeeds eB).challenge = eB + 2000 from rfl,
    show p42.ambition = 1 / 2 from rfl] at hch
  have hA : (nextTruncatedNormal (eA + 2000) 0 (1 / 2) 0 (1 / 2)).2 = 0 :=
    truncQuartileZero (eA + 2000) (by norm_num) hA1 hA2
  have hB : 9 / 50 ≤ (nextTruncatedNormal (eB + 2000) 0 (1 / 2) 0 (1 / 2)).2 :=
    truncNearOnePos (eB + 2000) hB0 hB1 hB2
  rw [hA, round3_zero] at hch
  have hBr : 9 / 50 ≤ round3 ((nextTruncatedNormal (eB + 2000) 0 (1 / 2) 0 (1 / 2)).2) := by
    have hmono := round3_mono hB
    rw [show round3 ((9 : ℝ) / 50) = 9 / 50 from by unfold round3; norm_num] at hmono
    exact hmono
  rw [← hch] at hBr
  linarith

/-! ### Behavior at out-of-range horizons and run counts -/

theorem runSimulation_neg_horizon (p : Params) (ft : ℤ) (hft : ft < 0)
    (seed : Option ℕ) (e : ℕ) : runSimulation p ft seed e = [] := by
  rw [runSimulation, show iterCount ft = 0 from by unfold iterCount; omega]
  rfl

theorem runSimulation_ne_nil (p : Params) (ft : ℤ) (hft : 0 ≤ ft)
    (seed : Option ℕ) (e : ℕ) : runSimulation p ft seed e ≠ [] := by
  intro h
  have hh := run_head p ft hft seed e
  rw [h] at hh
  simp at hh

theorem runMultipleSimulations_zero_runs (p : Params) (n ft : ℤ) (hn : n ≤ 0) (e : ℕ → ℕ) :
    runMultipleSimulations p n ft e = some [] := by
  rw [runMultipleSimulations, show n.toNat = 0 from by omega]
  rfl

theorem runMultipleSimulations_isSome (p : Params) (n ft : ℤ) (hft : 0 ≤ ft) (e : ℕ → ℕ) :
    (runMultipleSimulations p n ft e).isSome := by
  rw [runMultipleSimulations]
  apply mapM_option_isSome
  intro i _
  have hne := runSimulation_ne_nil p ft hft none (e i)
  have hLast : (runSimulation p ft none (e i)).getLast?.isSome :=
    List.getLast?_isSome.mpr hne
  obtain ⟨y, hy⟩ := Option.isSome_iff_exists.mp hLast
  rw [hy]
  rfl

theorem runMultipleSimulations_none (p : Params) (n ft : ℤ) (hft : ft < 0) (hn : 0 < n)
    (e : ℕ → ℕ) : runMultipleSimulations p n ft e = none := by
  rw [runMultipleSimulations]
  obtain ⟨m, hm⟩ : ∃ m, n.toNat = m + 1 := ⟨n.toNat - 1, by omega⟩
  rw [hm, List.range_succ_eq_map]
  apply mapM_option_head_none
  rw [runSimulation_neg_horizon p ft hft none (e 0)]
  rfl

/-- Parameter set with zero ambition (other fields at fixture values). -/
noncomputable def pZeroAmb : Params := ⟨0, 1/2, 1/2, 1/5, 1, 1, 1, 1, 1, 1, 1, 1, 1, 1⟩

/-! ## Claim theorems -/

/-- C1 (counterexample): the claim quantifies over every non-null seed, but the
falsy seed `0` is discarded by `seed || …` (line 57), so with `seed = 0` the
trajectory depends on the ambient entropy: entropies 1 and 31 give different
recorded period-0 challenge stressors. -/
theorem c1_seed_zero_not_deterministic :
    runSimulation p42 1 (some 0) 1 ≠ runSimulation p42 1 (some 0) 31 :=
  run_ch_ne 1 31 (by decide) (by decide) (by decide) (by decide) (by decide)

/-- C1 (amended): for every fixed params, horizon and non-null, nonzero seed,
the trajectory is independent of the ambient entropy — a deterministic function
of (params, horizon, seed) — and is computed from five streams seeded
`s, s+1000, s+1500, s+2000, s+3000`. -/
theorem c1_determinism_nonzero_seed (p : Params) (ft : ℤ) (s : ℕ) (hs : s ≠ 0) (e1 e2 : ℕ) :
    runSimulation p ft (some s) e1 = runSimulation p ft (some s) e2 ∧
    runSimulation p ft (some s) e1 = go p ft 0 (iterCount ft) initState (mkSeeds s) := by
  have hb1 : baseOf (some s) e1 = s := by simp [baseOf, hs]
  have hb2 : baseOf (some s) e2 = s := by simp [baseOf, hs]
  rw [runSimulation, runSimulation, hb1, hb2]
  exact ⟨rfl, rfl⟩

/-- C1 witness: the determinism theorem applied at seed 42 with entropies 0, 1. -/
theorem c1_determinism_nonzero_seed_witness :
    runSimulation pDefault 500 (some 42) 0 = runSimulation pDefault 500 (some 42) 1 ∧
    runSimulation pDefault 500 (some 42) 0
      = go pDefault 500 0 (iterCount 500) initState (mkSeeds 42) :=
  c1_determinism_nonzero_seed pDefault 500 42 (by norm_num) 0 1

/-- C2 (counterexample): the update step clamps only motivation, strain and
progress (lines 133–135); `cumulativeEffort` is not clamped.  With `var8 = -1`
(accepted by the engine) and horizon 1 the final `cumulativeEffort` of the run
is strictly negative, which the claimed clamp would forbid. -/
theorem c2_cumulative_effort_not_clamped :
    (runSimAux pNegVar8 1 (some 7) 0).1.cumulativeEffort < 0 := by
  obtain ⟨hm1, hs1, hc1⟩ := negvar8_state1
  rw [runSimAux, show baseOf (some 7) 0 = 7 from rfl,
    show iterCount 1 = (0 + 1) + 1 from rfl, goAux_succ, goAux_succ, goAux_zero_fst]
  rw [updateState_cumulativeEffort, hc1, stepFlows_effort, if_neg (by rw [hm1]; norm_num),
    hm1, hs1, show pNegVar8.var8 = -1 from rfl]
  have hexp : 0 < Real.exp (0 - 1 / 2) := Real.exp_pos _
  have hden : (0 : ℝ) < 1 + Real.exp (0 - 1 / 2) := by linarith
  have hfrac : 0 < 1 / (1 + Real.exp (0 - 1 / 2)) := by positivity
  linarith

/-- C2 (amended): after every update the three stocks motivation, strain and
progress are clamped to ≥ 0; `cumulativeEffort` is not clamped, but it stays
≥ 0 whenever `var8 ≥ 0` (the per-period effort is then nonnegative). -/
theorem c2_three_stocks_clamped (p : Params) (ft : ℤ) (t : ℕ) (st : State) (sd : Seeds) :
    0 ≤ (updateState st (stepFlows p ft t st sd).1).motivation ∧
    0 ≤ (updateState st (stepFlows p ft t st sd).1).strain ∧
    0 ≤ (updateState st (stepFlows p ft t st sd).1).progress ∧
    (0 ≤ p.var8 → 0 ≤ st.cumulativeEffort →
      0 ≤ (updateState st (stepFlows p ft t st sd).1).cumulativeEffort) := by
  refine ⟨le_max_left _ _, le_max_left _ _, le_max_left _ _, fun h8 hce => ?_⟩
  have heff : 0 ≤ (stepFlows p ft t st sd).1.effort := by
    rw [stepFlows_effort]
    by_cases hm : st.motivation = 0
    · rw [if_pos hm]
    · rw [if_neg hm]
      have hexp : 0 < Real.exp (st.strain - st.motivation) := Real.exp_pos _
      have hfrac : 0 < 1 / (1 + Real.exp (st.strain - st.motivation)) := by positivity
      exact mul_nonneg h8 hfrac.le
  rw [updateState_cumulativeEffort]
  linarith

/-- C2 witness: the clamp theorem applied at the fixture parameters and the
initial state. -/
theorem c2_three_stocks_clamped_witness :
    0 ≤ (updateState initState (stepFlows pDefault 500 0 initState (mkSeeds 9)).1).motivation ∧
    0 ≤ (updateState initState (stepFlows pDefault 500 0 initState (mkSeeds 9)).1).strain ∧
    0 ≤ (updateState initState (stepFlows pDefault 500 0 initState (mkSeeds 9)).1).progress ∧
    0 ≤ (updateState initState
      (stepFlows pDefault 500 0 initState (mkSeeds 9)).1).cumulativeEffort :=
  ⟨(c2_three_stocks_clamped pDefault 500 0 initState (mkSeeds 9)).1,
   (c2_three_stocks_clamped pDefault 500 0 initState (mkSeeds 9)).2.1,
   (c2_three_stocks_clamped pDefault 500 0 initState (mkSeeds 9)).2.2.1,
   (c2_three_stocks_clamped pDefault 500 0 initState (mkSeeds 9)).2.2.2
     (by norm_num [pDefault]) (by norm_num [initState])⟩

/-- C3: every recorded TrajectoryPoint of every run has nonnegative motivation,
strain and performance — the loop records the post-clamp stocks. -/
theorem c3_recorded_nonneg (p : Params) (ft : ℤ) (seed : Option ℕ) (entropy : ℕ) :
    (runSimulation p ft seed entropy).Forall
      (fun pt => 0 ≤ pt.motivation ∧ 0 ≤ pt.strain ∧ 0 ≤ pt.performance) := by
  rw [List.forall_iff_forall_mem]
  intro pt hpt
  rw [runSimulation] at hpt
  exact go_mem_nonneg p ft (iterCount ft) 0 initState (mkSeeds (baseOf seed entropy)) pt hpt

/-- C4 (counterexample): in the fixture run (seed 42, fixture params, horizon
500) the period-0 point records the post-update stocks, and the period-0
motivation inflow is `max(challenge, ambition)·recovery = 1/2`, so the recorded
period-0 motivation is 0.5, not 0 as claimed. -/
theorem c4_period0_motivation_ne_zero :
    (runSimulation p42 500 (some 42) 0).head?.map Point.motivation ≠ some 0 := by
  intro h
  rw [run42_head.1] at h
  have := Option.some.inj h
  norm_num at this

/-- C4 (amended): in the fixture run the recorded period-0 motivation is
exactly 0.5 and the recorded period-0 strain is exactly 0. -/
theorem c4_period0_values :
    (runSimulation p42 500 (some 42) 0).head?.map Point.motivation = some (1 / 2) ∧
    (runSimulation p42 500 (some 42) 0).head?.map Point.strain = some 0 :=
  run42_head

/-- C5 (counterexample): `this.seed * 1103515245 + 12345` is evaluated in
binary64, and for the seed 667795883 — reached from seed 2042, the challenge
stream of the fixture run — the product exceeds 2^53, is rounded, and the
updated seed differs from the exact `(seed·1103515245 + 12345) mod 2^31`. -/
theorem c5_update_formula_rounds :
    nextSeed 2042 = 667795883 ∧
    nextSeed 667795883 ≠ (667795883 * lcgA + lcgC) % 2 ^ 31 := by
  constructor
  · decide
  · decide

/-- C5 (amended): the update stores the binary64 rounding
`fl53(fl53(seed·1103515245) + 12345) mod 2^31`, which agrees with the exact
formula whenever `seed·1103515245 + 12345 < 2^53`; the returned value
`seed/(2^31−1)` always lies in `[0, 1)` (the top seed `2^31−1` is unreachable). -/
theorem c5_next_properties (s : ℕ) :
    nextSeed s = fl53 (fl53 (s * lcgA) + lcgC) % 2 ^ 31 ∧
    (s * lcgA + lcgC < 2 ^ 53 → nextSeed s = (s * lcgA + lcgC) % 2 ^ 31) ∧
    0 ≤ nextVal s ∧ nextVal s < 1 :=
  ⟨rfl, fun h => nextSeed_exact h, nextVal_nonneg s, nextVal_lt_one s⟩

/-- C5 witness: the generator properties at seed 42, where the update is exact. -/
theorem c5_next_properties_witness :
    nextSeed 42 = fl53 (fl53 (42 * lcgA) + lcgC) % 2 ^ 31 ∧
    nextSeed 42 = (42 * lcgA + lcgC) % 2 ^ 31 ∧
    0 ≤ nextVal 42 ∧ nextVal 42 < 1 :=
  ⟨(c5_next_properties 42).1, (c5_next_properties 42).2.1 (by decide),
   (c5_next_properties 42).2.2.1, (c5_next_properties 42).2.2.2⟩

/-- C6 (counterexample): a run count of 0 (an invalid argument, with an invalid
horizon −5 as well) does not fail fast: the driver returns the ordinary value
`some []` instead of signalling. -/
theorem c6_invalid_args_no_failure :
    runMultipleSimulations pDefault 0 (-5) (fun i => i) = some [] :=
  runMultipleSimulations_zero_runs pDefault 0 (-5) (by norm_num) (fun i => i)

/-- C6 (amended): the engine performs no argument validation.  A negative
horizon makes `runSimulation` return an empty trajectory; a run count ≤ 0 makes
the driver return an empty summary list; with a valid horizon the driver always
succeeds; the only failure the driver can hit is reading the last point of an
empty trajectory (negative horizon with at least one run), a `TypeError` rather
than an invalid-argument signal. -/
theorem c6_no_validation (p : Params) (seed : Option ℕ) (e : ℕ) (n ft : ℤ) (en : ℕ → ℕ) :
    (ft < 0 → runSimulation p ft seed e = []) ∧
    (n ≤ 0 → runMultipleSimulations p n ft en = some []) ∧
    (0 ≤ ft → (runMultipleSimulations p n ft en).isSome) ∧
    (ft < 0 → 0 < n → runMultipleSimulations p n ft en = none) :=
  ⟨fun h => runSimulation_neg_horizon p ft h seed e,
   fun h => runMultipleSimulations_zero_runs p n ft h en,
   fun h => runMultipleSimulations_isSome p n ft h en,
   fun h1 h2 => runMultipleSimulations_none p n ft h1 h2 en⟩

/-- C6 witness: the no-validation theorem applied at concrete arguments. -/
theorem c6_no_validation_witness :
    runSimulation pDefault (-1) (some 1) 0 = [] ∧
    runMultipleSimulations pDefault 0 500 (fun i => i) = some [] ∧
    (runMultipleSimulations pDefault 3 500 (fun i => i)).isSome ∧
    runMultipleSimulations pDefault 3 (-1) (fun i => i) = none :=
  ⟨(c6_no_validation pDefault (some 1) 0 0 (-1) (fun i => i)).1 (by norm_num),
   (c6_no_validation pDefault (some 1) 0 0 500 (fun i => i)).2.1 (by norm_num),
   (c6_no_validation pDefault (some 1) 0 3 500 (fun i => i)).2.2.1 (by norm_num),
   (c6_no_validation pDefault (some 1) 0 3 (-1) (fun i => i)).2.2.2 (by norm_num)
     (by norm_num)⟩

/-- C7: with zero ambition, every period computes challenge and hindrance
stressors 0, strain increase 0 and recovery 1, the challenge and hindrance
streams are never advanced (their seeds stay at `base+2000`, `base+3000` for
the whole run), and every recorded point carries zero stressors and recovery 1. -/
theorem c7_zero_ambition (p : Params) (hamb : p.ambition = 0) :
    (∀ (ft : ℤ) (t : ℕ) (st : State) (sd : Seeds),
      (stepFlows p ft t st sd).1.challengeStressors = 0 ∧
      (stepFlows p ft t st sd).1.hindranceStressors = 0 ∧
      (stepFlows p ft t st sd).1.strainIncrease = 0 ∧
      (stepFlows p ft t st sd).1.recovery = 1 ∧
      (stepFlows p ft t st sd).2.challenge = sd.challenge ∧
      (stepFlows p ft t st sd).2.hindrance = sd.hindrance) ∧
    (∀ (ft : ℤ) (seed : Option ℕ) (entropy : ℕ),
      (runSimAux p ft seed entropy).2.challenge = baseOf seed entropy + 2000 ∧
      (runSimAux p ft seed entropy).2.hindrance = baseOf seed entropy + 3000) ∧
    (∀ (ft : ℤ) (seed : Option ℕ) (entropy : ℕ),
      (runSimulation p ft seed entropy).Forall
        (fun pt => pt.challengeStressors = 0 ∧ pt.hindranceStressors = 0 ∧
          pt.recovery = 1)) := by
  refine ⟨?_, ?_, ?_⟩
  · intro ft t st sd
    refine ⟨?_, ?_, ?_, ?_, ?_, ?_⟩
    · rw [stepFlows_challengeStressors, if_pos hamb]
    · rw [stepFlows_hindranceStressors, if_pos hamb]
    · rw [stepFlows_strainIncrease, if_pos hamb]
    · rw [stepFlows_recovery, if_pos hamb]
    · rw [stepFlows_seed_challenge, if_pos hamb]
    · rw [stepFlows_seed_hindrance, if_pos hamb]
  · intro ft seed entropy
    have h := goAux_seeds_const p hamb ft (iterCount ft) 0 initState
      (mkSeeds (baseOf seed entropy))
    exact ⟨by rw [runSimAux]; exact h.1, by rw [runSimAux]; exact h.2⟩
  · intro ft seed entropy
    rw [List.forall_iff_forall_mem]
    intro pt hpt
    rw [runSimulation] at hpt
    exact go_mem_zero_ambition p hamb ft (iterCount ft) 0 initState
      (mkSeeds (baseOf seed entropy)) pt hpt

/-- C7 witness: the zero-ambition theorem at a concrete parameter set, period
and run. -/
theorem c7_zero_ambition_witness :
    pZeroAmb.ambition = 0 ∧
    ((stepFlows pZeroAmb 500 0 initState (mkSeeds 5)).1.challengeStressors = 0 ∧
     (stepFlows pZeroAmb 500 0 initState (mkSeeds 5)).1.hindranceStressors = 0 ∧
     (stepFlows pZeroAmb 500 0 initState (mkSeeds 5)).1.strainIncrease = 0 ∧
     (stepFlows pZeroAmb 500 0 initState (mkSeeds 5)).1.recovery = 1 ∧
     (stepFlows pZeroAmb 500 0 initState (mkSeeds 5)).2.challenge = (mkSeeds 5).challenge ∧
     (stepFlows pZeroAmb 500 0 initState (mkSeeds 5)).2.hindrance = (mkSeeds 5).hindrance) ∧
    ((runSimAux pZeroAmb 500 (some 5) 0).2.challenge = baseOf (some 5) 0 + 2000 ∧
     (runSimAux pZeroAmb 500 (some 5) 0).2.hindrance = baseOf (some 5) 0 + 3000) ∧
    (runSimulation pZeroAmb 500 (some 5) 0).Forall
      (fun pt => pt.challengeStressors = 0 ∧ pt.hindranceStressors = 0 ∧
        pt.recovery = 1) :=
  ⟨rfl,
   (c7_zero_ambition pZeroAmb rfl).1 500 0 initState (mkSeeds 5),
   (c7_zero_ambition pZeroAmb rfl).2.1 500 (some 5) 0,
   (c7_zero_ambition pZeroAmb rfl).2.2 500 (some 5) 0⟩

set_option maxRecDepth 10000 in
/-- C8: a horizon-500 run returns exactly 101 points, recorded exactly at the
periods `t ≡ 0 (mod 5)` of the inclusive loop `t = 0..500`, with period labels
`0, 5, …, 500` in order. -/
theorem c8_sampling_cadence (p : Params) (seed : Option ℕ) (entropy : ℕ) :
    (runSimulation p 500 seed entropy).length = 101 ∧
    (runSimulation p 500 seed entropy).map Point.period
      = (List.range 101).map (fun i => 5 * i) := by
  have hmap : (runSimulation p 500 seed entropy).map Point.period
      = ((List.range 501).map (fun i => 0 + i)).filter (fun x => x % 5 == 0) := by
    rw [runSimulation, show iterCount 500 = 501 from rfl]
    exact go_map_period p 500 501 0 initState (mkSeeds (baseOf seed entropy))
  have hconc : ((List.range 501).map (fun i => 0 + i)).filter (fun x => x % 5 == 0)
      = (List.range 101).map (fun i => 5 * i) := by decide
  have hfinal := hmap.trans hconc
  refine ⟨?_, hfinal⟩
  have hlen := congrArg List.length hfinal
  simpa using hlen

/-- C9: in every period, the computed effort lies in `[0, var8]` when
`var8 ∈ [0, 1]`: it is 0 when the pre-update motivation is 0, and otherwise
`var8` times the logistic `1/(1+exp(strain − motivation))` of the pre-update
stocks, which lies in `(0, 1)`. -/
theorem c9_effort_bounds (p : Params) (ft : ℤ) (t : ℕ) (st : State) (sd : Seeds)
    (h0 : 0 ≤ p.var8) (_hv1 : p.var8 ≤ 1) :
    0 ≤ (stepFlows p ft t st sd).1.effort ∧
    (stepFlows p ft t st sd).1.effort ≤ p.var8 ∧
    (st.motivation = 0 → (stepFlows p ft t st sd).1.effort = 0) := by
  rw [stepFlows_effort]
  by_cases hm : st.motivation = 0
  · rw [if_pos hm]
    exact ⟨le_refl 0, h0, fun _ => rfl⟩
  · rw [if_neg hm]
    have hexp : 0 < Real.exp (st.strain - st.motivation) := Real.exp_pos _
    have hden : (0 : ℝ) < 1 + Real.exp (st.strain - st.motivation) := by linarith
    have hfrac0 : 0 < 1 / (1 + Real.exp (st.strain - st.motivation)) := by positivity
    have hfrac1 : 1 / (1 + Real.exp (st.strain - st.motivation)) ≤ 1 := by
      rw [div_le_one hden]
      linarith
    refine ⟨mul_nonneg h0 hfrac0.le, ?_, fun hc => absurd hc hm⟩
    calc p.var8 * (1 / (1 + Real.exp (st.strain - st.motivation)))
        ≤ p.var8 * 1 := mul_le_mul_of_nonneg_left hfrac1 h0
      _ = p.var8 := mul_one _

/-- C9 witness: the effort bounds at the fixture parameters (var8 = 1) and the
initial state. -/
theorem c9_effort_bounds_witness :
    0 ≤ (stepFlows pDefault 500 0 initState (mkSeeds 11)).1.effort ∧
    (stepFlows pDefault 500 0 initState (mkSeeds 11)).1.effort ≤ pDefault.var8 ∧
    (initState.motivation = 0 → (stepFlows pDefault 500 0 initState (mkSeeds 11)).1.effort = 0) :=
  c9_effort_bounds pDefault 500 0 initState (mkSeeds 11)
    (by norm_num [pDefault]) (by norm_num [pDefault])

/-- C10: the falsy check `seed || …` discards the seed 0, so a call with
`seed = 0` behaves exactly like a call with `seed = null` (the entropy fallback
is used), and such calls are not reproducible: two entropies (3 and 56) give
observably different trajectories at seed 0. -/
theorem c10_seed_zero_like_null :
    (∀ (p : Params) (ft : ℤ) (e : ℕ),
      runSimulation p ft (some 0) e = runSimulation p ft none e) ∧
    runSimulation p42 1 (some 0) 3 ≠ runSimulation p42 1 (some 0) 56 :=
  ⟨fun _ _ _ => rfl,
   run_ch_ne 3 56 (by decide) (by decide) (by decide) (by decide) (by decide)⟩

end WellBeing
